import Mathlib

/-!
# Variant availability resolution engine — shallow embedding

Embedding of the variant-availability utilities described in
`src/ClientProductQuery-improvement.md` (the design document is the source
of the repository's engine code):

* the catalog data model (GraphQL `allVariantProducts` entries, lines 234-248),
* the per-variant classification performed inside `createVariantAvailabilityMap`
  (base version lines 252-269, low-stock extension "Feature 1" lines 453-468,
  pre-order/back-order extension "Feature 3" lines 531-551),
* `isVariantDisabled` (lines 278-288),
* the offer selection policy for multiple sellers ("Edge case 1", lines 753-760),
* the diagnostic counters of the "Monitoring" section (lines 990-1012).

JavaScript objects used as string-keyed maps are modelled as association
lists with overwrite-on-insert; `undefined`/absent fields are modelled with
`Option`. Prices (`number`) are `ℚ`, quantities are `ℤ`. All definitions are
total: the TypeScript code has no throw path, and the embedding reflects that
by construction.
-/

/-- `inventoryLevel { value }` nested object of an offer (md lines 243-245). -/
structure InventoryLevel where
  value : Int
deriving DecidableEq

/-- `seller { identifier }` nested object of an offer (GraphQL fragment,
md lines 75-77; used by "Edge case 1", line 755). -/
structure Seller where
  identifier : String
deriving DecidableEq

/-- One commercial offer of a variant (element type of `offers.offers`,
md lines 240-246).  Every field is optional in the TypeScript type. -/
structure Offer where
  availability : Option String
  quantity : Option Int
  inventoryLevel : Option InventoryLevel
  seller : Option Seller
deriving DecidableEq

/-- The `offers` composite of a variant: `lowPrice` plus the per-seller offer
list (md lines 238-247).  `lowPrice` is declared non-optional, the list is
optional. -/
structure Offers where
  lowPrice : Rat
  offers : Option (List Offer)
deriving DecidableEq

/-- One entry of `allVariantProducts` (md lines 235-248). -/
structure VariantProduct where
  name : String
  productID : String
  offers : Option Offers
deriving DecidableEq

/-- The per-variant decision record `VariantAvailability`, in its final shape:
base fields (md lines 220-225) plus `isLowStock` (Feature 1, lines 443-449)
plus `isPreOrder` / `isBackOrder` (Feature 3, lines 540-548). -/
structure VariantAvailability where
  isAvailable : Bool
  isPreOrder : Bool
  isBackOrder : Bool
  isLowStock : Bool
  quantity : Int
  availability : String
  lowPrice : Rat
deriving DecidableEq

/-- `AvailabilityMap = Record<string, VariantAvailability>` (md line 227),
modelled as an association list whose insertion overwrites the previous
binding of the key, as JavaScript property assignment does. -/
abbrev AvailabilityMap : Type := List (String × VariantAvailability)

/-- JavaScript property assignment `map[k] = v`: any previous binding of `k`
is replaced by the new one. -/
def insertEntry (m : AvailabilityMap) (k : String) (v : VariantAvailability) :
    AvailabilityMap :=
  (List.filter (fun p => p.1 != k) m) ++ [(k, v)]

/-- JavaScript property read `map[k]`, yielding `undefined` when absent. -/
def lookupVariant (m : AvailabilityMap) (k : String) :
    Option VariantAvailability :=
  (List.find? (fun p => p.1 == k) m).map Prod.snd

/-- `variant.offers?.offers?.[0]` — the offer the reducer classifies
(md line 253). -/
def canonicalOffer (variant : VariantProduct) : Option Offer :=
  ((variant.offers).bind Offers.offers).bind List.head?

/-- `offer?.availability || ""` (md line 254).  An absent status becomes the
empty string; a present status is kept verbatim (an empty-string status is
already the `||` default). -/
def resolvedAvailability (variant : VariantProduct) : String :=
  (((canonicalOffer variant).bind Offer.availability)).getD ""

/-- `offer?.quantity ?? offer?.inventoryLevel?.value ?? 0` (md line 255). -/
def resolvedQuantity (variant : VariantProduct) : Int :=
  (((canonicalOffer variant).bind Offer.quantity)).getD
    (((((canonicalOffer variant).bind Offer.inventoryLevel)).map
        InventoryLevel.value).getD 0)

/-- `variant.offers?.lowPrice ?? 0` (md line 256). -/
def resolvedLowPrice (variant : VariantProduct) : Rat :=
  (((variant.offers)).map Offers.lowPrice).getD 0

/-- The body of the `reduce` callback of `createVariantAvailabilityMap`, in
its final shape: field extraction from the base version (md lines 253-256),
the status flags and `isAvailable` rule of Feature 3 (md lines 536-548), and
the `isLowStock` rule of Feature 1 with its threshold parameter
(md lines 455, 461). -/
def classifyVariant (lowStockThreshold : Int) (variant : VariantProduct) :
    VariantAvailability :=
  let availability := resolvedAvailability variant
  let quantity := resolvedQuantity variant
  let lowPrice := resolvedLowPrice variant
  let isInStock := availability == "https://schema.org/InStock"
  let isPreOrder := availability == "https://schema.org/PreOrder"
  let isBackOrder := availability == "https://schema.org/BackOrder"
  { isAvailable := (isInStock || isPreOrder || isBackOrder) &&
      decide (0 < lowPrice)
    isPreOrder := isPreOrder
    isBackOrder := isBackOrder
    isLowStock := decide (0 < quantity) && decide (quantity ≤ lowStockThreshold)
    quantity := quantity
    availability := availability
    lowPrice := lowPrice }

/-- `createVariantAvailabilityMap(allVariantProducts?, lowStockThreshold)`
(md lines 234-270 with the Feature 1 threshold parameter, line 455): an absent
variant list yields the empty map, otherwise the variants are folded left
into the map, each assignment keyed by `variant.name` (md line 258). -/
def createVariantAvailabilityMap
    (allVariantProducts : Option (List VariantProduct))
    (lowStockThreshold : Int) : AvailabilityMap :=
  match allVariantProducts with
  | none => []
  | some vs =>
      List.foldl
        (fun map variant =>
          insertEntry map variant.name (classifyVariant lowStockThreshold variant))
        [] vs

/-- `isVariantDisabled(optionValue, availabilityMap)` (md lines 278-288):
an option with no entry is left enabled (fail-safe), otherwise the entry's
`isAvailable` is negated. -/
def isVariantDisabled (optionValue : String) (availabilityMap : AvailabilityMap) :
    Bool :=
  match lookupVariant availabilityMap optionValue with
  | none => false
  | some variantData => !variantData.isAvailable

/-- `o.seller?.identifier` of an offer, `undefined` when the seller object is
absent. -/
def sellerIdOf (o : Offer) : Option String :=
  (o.seller).map Seller.identifier

/-- Modelled from the spec: the configurable `OfferSelector` of spec §4.2.
The source code ("Edge case 1", md lines 753-760) hard-codes the preferred
seller `"1"`; the spec exposes it as `config.preferredSellerId` (optional,
default none).  When set and matched, the matching offer is returned;
otherwise the first offer in received order (`offers?.[0]`, the base code's
selection, md line 253). -/
def selectOffer (preferredSellerId : Option String) (offers : List Offer) :
    Option Offer :=
  match preferredSellerId with
  | none => offers.head?
  | some sid =>
      match List.find? (fun o => sellerIdOf o == some sid) offers with
      | some o => some o
      | none => offers.head?

/-- The literal selector of "Edge case 1" (md lines 755-756):
`offers?.find(o => o.seller?.identifier === "1") || offers?.[0]`. -/
def selectOfferCode (offers : List Offer) : Option Offer :=
  match List.find? (fun o => sellerIdOf o == some "1") offers with
  | some o => some o
  | none => offers.head?

/-- Diagnostic counters of the Monitoring section (md lines 996-1000):
total variant count, count of variants with a truthy `offers` object, count
of variants whose first offer has a truthy (non-empty) availability string. -/
structure AvailabilityStats where
  total : Nat
  withOffers : Nat
  withAvailability : Nat
deriving DecidableEq

/-- The counters computed at md lines 996-1000 over a present variant list. -/
def variantStats (allVariantProducts : List VariantProduct) : AvailabilityStats :=
  { total := allVariantProducts.length
    withOffers :=
      (List.filter (fun v => (VariantProduct.offers v).isSome)
        allVariantProducts).length
    withAvailability :=
      (List.filter (fun v => resolvedAvailability v != "")
        allVariantProducts).length }

/-- `createVariantAvailabilityMap` together with its development-mode
diagnostics (Monitoring section, md lines 990-1012): the returned map is the
ordinary one; the stats record is emitted only in development mode and is
computed after the early `if (!allVariantProducts) return {}` guard. -/
def createVariantAvailabilityMapLogged
    (allVariantProducts : Option (List VariantProduct))
    (lowStockThreshold : Int) (isDevelopment : Bool) :
    AvailabilityMap × Option AvailabilityStats :=
  match allVariantProducts with
  | none => ([], none)
  | some vs =>
      (createVariantAvailabilityMap (some vs) lowStockThreshold,
        if isDevelopment then some (variantStats vs) else none)

/-- Modelled from the spec: `missingDataPolicy` of `ResolutionConfig`
(spec §3), an enum absent from the source code, used to state Scenario C. -/
inductive MissingDataPolicy
  | Optimistic
  | Pessimistic
deriving DecidableEq

/-- Modelled from the spec: Scenario C (spec §8) claims that a variant with
no offers gets `isAvailable = (missingDataPolicy == Optimistic)`. -/
def scenarioCClaimedAvailability (p : MissingDataPolicy) : Bool :=
  match p with
  | MissingDataPolicy.Optimistic => true
  | MissingDataPolicy.Pessimistic => false

/-! ## Concrete catalog fixtures (taken from the unit tests and examples of
the design document) -/

/-- "Red" of the unit tests (md lines 572-585): `InStock`, quantity 100,
`lowPrice` 50. -/
def redVariant : VariantProduct :=
  { name := "Red", productID := "1"
    offers := some
      { lowPrice := 50
        offers := some
          [{ availability := some "https://schema.org/InStock"
             quantity := some 100
             inventoryLevel := none
             seller := none }] } }

/-- "Blue" of the unit tests (md lines 594-608): `OutOfStock`, quantity 0,
`lowPrice` 0. -/
def blueVariant : VariantProduct :=
  { name := "Blue", productID := "2"
    offers := some
      { lowPrice := 0
        offers := some
          [{ availability := some "https://schema.org/OutOfStock"
             quantity := some 0
             inventoryLevel := none
             seller := none }] } }

/-- "Green" of the unit tests (md lines 617-621): a variant carrying no
`offers` object at all. -/
def greenVariant : VariantProduct :=
  { name := "Green", productID := "3", offers := none }

/-- "Yellow" of the unit tests (md lines 630-644): `InStock`, quantity 5,
`lowPrice` 50. -/
def yellowVariant : VariantProduct :=
  { name := "Yellow", productID := "4"
    offers := some
      { lowPrice := 50
        offers := some
          [{ availability := some "https://schema.org/InStock"
             quantity := some 5
             inventoryLevel := none
             seller := none }] } }

example : (classifyVariant 10 redVariant).isAvailable = true := by decide
example : (classifyVariant 10 redVariant).isLowStock = false := by decide
example : (classifyVariant 10 blueVariant).isAvailable = false := by decide
example : (classifyVariant 10 greenVariant).isAvailable = false := by decide
example : (classifyVariant 10 yellowVariant).isAvailable = true := by decide
example : (classifyVariant 10 yellowVariant).isLowStock = true := by decide
example :
    lookupVariant (createVariantAvailabilityMap (some [redVariant, blueVariant]) 10)
      "Blue" = some (classifyVariant 10 blueVariant) := by decide
example : isVariantDisabled "Unknown" [] = false := by rfl

/-! ## Association-list lemmas for the overwrite-on-insert map -/

theorem find?_filter_of_imp {α : Type} (l : List α) (p q : α → Bool)
    (h : ∀ x, p x = true → q x = true) :
    List.find? p (List.filter q l) = List.find? p l := by
  rw [List.find?_filter]
  congr 1
  funext a
  by_cases hp : p a = true
  · simp [hp, h a hp]
  · simp [hp]

theorem lookupVariant_insertEntry_self (m : AvailabilityMap) (k : String)
    (v : VariantAvailability) :
    lookupVariant (insertEntry m k v) k = some v := by
  unfold lookupVariant insertEntry
  rw [List.find?_append]
  have hnone :
      List.find? (fun p => p.1 == k) (List.filter (fun p => p.1 != k) m) = none := by
    apply List.find?_eq_none.2
    intro x hx
    have hne := List.of_mem_filter hx
    simp only [bne_iff_ne, ne_eq] at hne
    simpa using hne
  rw [hnone]
  have hone : List.find? (fun p => p.1 == k) [(k, v)] = some (k, v) :=
    List.find?_cons_of_pos _ (by simp)
  rw [hone]
  rfl

theorem lookupVariant_insertEntry_ne (m : AvailabilityMap) (k k' : String)
    (v : VariantAvailability) (h : k' ≠ k) :
    lookupVariant (insertEntry m k v) k' = lookupVariant m k' := by
  unfold lookupVariant insertEntry
  rw [List.find?_append]
  rw [find?_filter_of_imp m (fun p => p.1 == k') (fun p => p.1 != k)
    (by
      intro x hx
      have hx' : x.1 = k' := by simpa using hx
      simpa [hx'] using h)]
  cases hfind : List.find? (fun p => p.1 == k') m with
  | some p => rfl
  | none =>
      have hone : List.find? (fun p => p.1 == k') [(k, v)] = none :=
        List.find?_cons_of_neg _ (by simpa using Ne.symm h)
      rw [hone]
      rfl

theorem mem_keys_iff_lookup_isSome (m : AvailabilityMap) (k : String) :
    (lookupVariant m k).isSome = true ↔ k ∈ List.map Prod.fst m := by
  unfold lookupVariant
  constructor
  · intro hs
    rcases Option.isSome_iff_exists.1 hs with ⟨v, hv⟩
    rcases Option.map_eq_some'.1 hv with ⟨p, hfind, hsnd⟩
    have hmem := List.mem_of_find?_eq_some hfind
    have hpk : p.1 = k := by simpa using List.find?_some hfind
    exact hpk ▸ List.mem_map_of_mem Prod.fst hmem
  · intro hmem
    rcases List.mem_map.1 hmem with ⟨p, hp, hk⟩
    have hs : (List.find? (fun q => q.1 == k) m).isSome = true :=
      List.find?_isSome.2 ⟨p, hp, by simpa using hk⟩
    rcases Option.isSome_iff_exists.1 hs with ⟨q, hq⟩
    rw [hq]
    rfl

theorem nodup_keys_insertEntry (m : AvailabilityMap) (k : String)
    (v : VariantAvailability)
    (h : (List.map Prod.fst m).Nodup) :
    (List.map Prod.fst (insertEntry m k v)).Nodup := by
  unfold insertEntry
  rw [List.map_append]
  apply List.Nodup.append
  · exact ((List.filter_sublist m).map Prod.fst).nodup h
  · simp
  · intro x hx hy
    have hxk : x = k := by simpa using hy
    rcases List.mem_map.1 hx with ⟨p, hmem, hfst⟩
    have hne := List.of_mem_filter hmem
    rw [hfst, hxk] at hne
    simp at hne

/-! ## Lemmas about the left fold building the availability map -/

theorem lookup_foldl_of_not_mem (thr : Int) (vs : List VariantProduct)
    (m : AvailabilityMap) (k : String)
    (h : ∀ w ∈ vs, w.name ≠ k) :
    lookupVariant
      (List.foldl
        (fun map variant =>
          insertEntry map variant.name (classifyVariant thr variant)) m vs) k
      = lookupVariant m k := by
  induction vs generalizing m with
  | nil => rfl
  | cons a t ih =>
      rw [List.foldl_cons]
      rw [ih (insertEntry m a.name (classifyVariant thr a))
        (fun w hw => h w (List.mem_cons_of_mem a hw))]
      exact lookupVariant_insertEntry_ne m a.name k (classifyVariant thr a)
        (Ne.symm (h a (List.mem_cons_self a t)))

theorem lookup_foldl_unique (thr : Int) (vs : List VariantProduct)
    (m : AvailabilityMap) (v : VariantProduct)
    (hmem : v ∈ vs) (huniq : ∀ w ∈ vs, w.name = v.name → w = v) :
    lookupVariant
      (List.foldl
        (fun map variant =>
          insertEntry map variant.name (classifyVariant thr variant)) m vs)
      v.name = some (classifyVariant thr v) := by
  induction vs generalizing m with
  | nil => cases hmem
  | cons a t ih =>
      rw [List.foldl_cons]
      by_cases hvt : v ∈ t
      · exact ih _ hvt (fun w hw he => huniq w (List.mem_cons_of_mem a hw) he)
      · have hva : v = a := by
          rcases List.mem_cons.1 hmem with h1 | h1
          · exact h1
          · exact absurd h1 hvt
        subst hva
        have hnone : ∀ w ∈ t, w.name ≠ v.name := by
          intro w hw hne
          exact hvt ((huniq w (List.mem_cons_of_mem v hw) hne) ▸ hw)
        rw [lookup_foldl_of_not_mem thr t _ v.name hnone]
        exact lookupVariant_insertEntry_self m v.name (classifyVariant thr v)

theorem lookup_foldl_entries (thr : Int) (vs : List VariantProduct)
    (m : AvailabilityMap) (k : String) (d : VariantAvailability)
    (h : lookupVariant
      (List.foldl
        (fun map variant =>
          insertEntry map variant.name (classifyVariant thr variant)) m vs) k
      = some d) :
    (∃ v, v ∈ vs ∧ v.name = k ∧ d = classifyVariant thr v) ∨
      lookupVariant m k = some d := by
  induction vs generalizing m with
  | nil => exact Or.inr h
  | cons a t ih =>
      rw [List.foldl_cons] at h
      rcases ih _ h with h1 | h1
      · rcases h1 with ⟨v, hv, hk, hd⟩
        exact Or.inl ⟨v, List.mem_cons_of_mem a hv, hk, hd⟩
      · by_cases hk : k = a.name
        · subst hk
          rw [lookupVariant_insertEntry_self] at h1
          exact Or.inl ⟨a, List.mem_cons_self a t, rfl,
            (Option.some_inj.1 h1).symm⟩
        · rw [lookupVariant_insertEntry_ne m a.name k _ hk] at h1
          exact Or.inr h1

theorem lookup_foldl_isSome (thr : Int) (vs : List VariantProduct)
    (m : AvailabilityMap) (k : String) :
    (lookupVariant
      (List.foldl
        (fun map variant =>
          insertEntry map variant.name (classifyVariant thr variant)) m vs)
      k).isSome = true ↔
      (∃ v ∈ vs, v.name = k) ∨ (lookupVariant m k).isSome = true := by
  induction vs generalizing m with
  | nil => simp
  | cons a t ih =>
      rw [List.foldl_cons, ih]
      constructor
      · rintro (⟨v, hv, hk⟩ | hsome)
        · exact Or.inl ⟨v, List.mem_cons_of_mem a hv, hk⟩
        · by_cases hk : k = a.name
          · exact Or.inl ⟨a, List.mem_cons_self a t, hk.symm⟩
          · rw [lookupVariant_insertEntry_ne m a.name k _ hk] at hsome
            exact Or.inr hsome
      · rintro (⟨v, hv, hk⟩ | hsome)
        · rcases List.mem_cons.1 hv with h1 | h1
          · subst h1
            right
            rw [← hk, lookupVariant_insertEntry_self]
            rfl
          · exact Or.inl ⟨v, h1, hk⟩
        · right
          by_cases hk : k = a.name
          · subst hk
            rw [lookupVariant_insertEntry_self]
            rfl
          · rw [lookupVariant_insertEntry_ne m a.name k _ hk]
            exact hsome

theorem nodup_keys_foldl (thr : Int) (vs : List VariantProduct)
    (m : AvailabilityMap) (h : (List.map Prod.fst m).Nodup) :
    (List.map Prod.fst
      (List.foldl
        (fun map variant =>
          insertEntry map variant.name (classifyVariant thr variant))
        m vs)).Nodup := by
  induction vs generalizing m with
  | nil => exact h
  | cons a t ih =>
      rw [List.foldl_cons]
      exact ih _ (nodup_keys_insertEntry m a.name (classifyVariant thr a) h)

/-! ## Characterizations of the per-variant decision -/

theorem classifyVariant_isLowStock (thr : Int) (v : VariantProduct) :
    (classifyVariant thr v).isLowStock = true ↔
      0 < resolvedQuantity v ∧ resolvedQuantity v ≤ thr := by
  simp [classifyVariant]

theorem classifyVariant_quantity (thr : Int) (v : VariantProduct) :
    (classifyVariant thr v).quantity = resolvedQuantity v := rfl

theorem lookup_build_isLowStock (ps : Option (List VariantProduct)) (thr : Int)
    (k : String) (d : VariantAvailability)
    (h : lookupVariant (createVariantAvailabilityMap ps thr) k = some d) :
    (d.isLowStock = true ↔ 0 < d.quantity ∧ d.quantity ≤ thr) := by
  cases ps with
  | none => simp [createVariantAvailabilityMap, lookupVariant] at h
  | some vs =>
      rcases lookup_foldl_entries thr vs [] k d h with ⟨v, hv, hk, hd⟩ | h1
      · rw [hd, classifyVariant_quantity]
        exact classifyVariant_isLowStock thr v
      · simp [lookupVariant] at h1

/-! ## Further concrete fixtures -/

/-- A variant that is `OutOfStock` with a positive quantity and price (a
stale-stock record shape permitted by the catalog contract). -/
def grayVariant : VariantProduct :=
  { name := "Gray", productID := "5"
    offers := some
      { lowPrice := 50
        offers := some
          [{ availability := some "https://schema.org/OutOfStock"
             quantity := some 5
             inventoryLevel := none
             seller := none }] } }

/-- An `InStock` variant with stock but a zero `lowPrice` (the catalog's
"not sellable" sentinel). -/
def zeroPriceVariant : VariantProduct :=
  { name := "Gift", productID := "6"
    offers := some
      { lowPrice := 0
        offers := some
          [{ availability := some "https://schema.org/InStock"
             quantity := some 100
             inventoryLevel := none
             seller := none }] } }

/-- An offer with no `quantity` field whose `inventoryLevel.value` is present
and equal to `0`. -/
def silverOffer : Offer :=
  { availability := some "https://schema.org/InStock"
    quantity := none
    inventoryLevel := some { value := 0 }
    seller := none }

/-- A variant wrapping `silverOffer`. -/
def silverVariant : VariantProduct :=
  { name := "Silver", productID := "7"
    offers := some { lowPrice := 50, offers := some [silverOffer] } }

/-- An offer with no `quantity` field and `inventoryLevel.value = 150`
(shape of the "980 - Champagne-51" example, md lines 173-183). -/
def champagneOffer : Offer :=
  { availability := some "https://schema.org/InStock"
    quantity := none
    inventoryLevel := some { value := 150 }
    seller := some { identifier := "1" } }

/-- A variant wrapping `champagneOffer`. -/
def champagneVariant : VariantProduct :=
  { name := "980 - Champagne-51", productID := "80692"
    offers := some { lowPrice := 40.6, offers := some [champagneOffer] } }

/-- Seller `"2"`'s `InStock` offer of the multi-seller scenario. -/
def inStockSeller2Offer : Offer :=
  { availability := some "https://schema.org/InStock"
    quantity := some 10
    inventoryLevel := none
    seller := some { identifier := "2" } }

/-- Seller `"1"`'s `OutOfStock` offer of the multi-seller scenario. -/
def outOfStockSeller1Offer : Offer :=
  { availability := some "https://schema.org/OutOfStock"
    quantity := some 0
    inventoryLevel := none
    seller := some { identifier := "1" } }

/-- The multi-seller offer list of claim C3: seller `"2"` first (InStock),
seller `"1"` second (OutOfStock). -/
def multiSellerOffers : List Offer :=
  [inStockSeller2Offer, outOfStockSeller1Offer]

/-- The Edge-case-1 selector is the spec's `OfferSelector` at the hard-coded
preferred seller `"1"`. -/
theorem selectOfferCode_eq_selectOffer (offers : List Offer) :
    selectOfferCode offers = selectOffer (some "1") offers := by
  unfold selectOfferCode selectOffer
  rfl

/-! ## Claim theorems -/

/-- C1: for every variant whose canonical offer has availability status
`InStock`, positive quantity and positive price, the decision stored for it
in the availability map has `isAvailable = true`, `isPreOrder = false`,
`isBackOrder = false`, and `isLowStock = true` exactly when the quantity is
at or below the configured low-stock threshold. -/
theorem inStock_positive_offer_available (vs : List VariantProduct)
    (thr : Int) (v : VariantProduct)
    (hmem : v ∈ vs) (huniq : ∀ w ∈ vs, w.name = v.name → w = v)
    (hstatus : resolvedAvailability v = "https://schema.org/InStock")
    (hq : 0 < resolvedQuantity v) (hp : 0 < resolvedLowPrice v) :
    ∃ d, lookupVariant (createVariantAvailabilityMap (some vs) thr) v.name
        = some d
      ∧ d.isAvailable = true ∧ d.isPreOrder = false ∧ d.isBackOrder = false
      ∧ (d.isLowStock = true ↔ resolvedQuantity v ≤ thr) := by
  refine ⟨classifyVariant thr v, ?_, ?_, ?_, ?_, ?_⟩
  · exact lookup_foldl_unique thr vs [] v hmem huniq
  · simp [classifyVariant, hstatus, hp]
  · simp [classifyVariant, hstatus]
  · simp [classifyVariant, hstatus]
  · simp [classifyVariant, hq]

/-- Witness for C1 at the "Red" unit-test fixture with threshold 10. -/
theorem inStock_positive_offer_available_witness :
    ∃ d, lookupVariant (createVariantAvailabilityMap (some [redVariant]) 10)
        redVariant.name = some d
      ∧ d.isAvailable = true ∧ d.isPreOrder = false ∧ d.isBackOrder = false
      ∧ (d.isLowStock = true ↔ resolvedQuantity redVariant ≤ 10) :=
  inStock_positive_offer_available [redVariant] 10 redVariant
    (by decide) (by decide) (by decide) (by decide) (by decide)

/-- C2: a zero `lowPrice` forces `isAvailable = false` in the resulting
decision, regardless of the offer's availability status and quantity. -/
theorem zero_price_unavailable (v : VariantProduct) (thr : Int)
    (h : resolvedLowPrice v = 0) :
    (classifyVariant thr v).isAvailable = false := by
  simp [classifyVariant, h]

/-- Witness for C2 at an `InStock` variant with quantity 100 and zero price. -/
theorem zero_price_unavailable_witness :
    (classifyVariant 10 zeroPriceVariant).isAvailable = false :=
  zero_price_unavailable zeroPriceVariant 10 (by decide)

/-- C3: with a preferred seller configured and present among the offers, the
offer selector returns that seller's offer; otherwise it returns the first
offer in received order.  In particular, on
`[{sellerId "2", InStock}, {sellerId "1", OutOfStock}]` with preferred seller
`"1"` it selects the OutOfStock offer. -/
theorem selectOffer_preferred_seller (offers : List Offer) (sid : String)
    (o : Offer) (hne : offers ≠ []) :
    (List.find? (fun x => sellerIdOf x == some sid) offers = some o →
        selectOffer (some sid) offers = some o)
    ∧ (List.find? (fun x => sellerIdOf x == some sid) offers = none →
        selectOffer (some sid) offers = offers.head?)
    ∧ selectOffer none offers = offers.head?
    ∧ selectOffer (some "1") multiSellerOffers = some outOfStockSeller1Offer := by
  refine ⟨?_, ?_, rfl, by decide⟩
  · intro h
    simp [selectOffer, h]
  · intro h
    simp [selectOffer, h]

/-- Witness for C3 at the multi-seller fixture. -/
theorem selectOffer_preferred_seller_witness :
    (List.find? (fun x => sellerIdOf x == some "1") multiSellerOffers
        = some outOfStockSeller1Offer →
      selectOffer (some "1") multiSellerOffers = some outOfStockSeller1Offer)
    ∧ (List.find? (fun x => sellerIdOf x == some "1") multiSellerOffers = none →
      selectOffer (some "1") multiSellerOffers = multiSellerOffers.head?)
    ∧ selectOffer none multiSellerOffers = multiSellerOffers.head?
    ∧ selectOffer (some "1") multiSellerOffers = some outOfStockSeller1Offer :=
  selectOffer_preferred_seller multiSellerOffers "1" outOfStockSeller1Offer
    (by decide)

/-- C4 counterexample: the "Green" variant has no offers, yet its decision has
`isAvailable = false` even though the claim, read at
`missingDataPolicy = Optimistic`, demands `isAvailable = true`. -/
theorem no_offer_variant_unavailable_despite_optimistic :
    canonicalOffer greenVariant = none
    ∧ scenarioCClaimedAvailability MissingDataPolicy.Optimistic = true
    ∧ (lookupVariant (createVariantAvailabilityMap (some [greenVariant]) 10)
        "Green").map VariantAvailability.isAvailable = some false := by
  decide

/-- C4 amended: a variant with an empty or absent offer list is always
classified unavailable; no missing-data policy exists in the code and none
influences the result. -/
theorem no_offer_variant_always_unavailable (v : VariantProduct) (thr : Int)
    (h : canonicalOffer v = none) :
    (classifyVariant thr v).isAvailable = false := by
  simp [classifyVariant, resolvedAvailability, h]

/-- Witness for the amended C4 at the "Green" unit-test fixture. -/
theorem no_offer_variant_always_unavailable_witness :
    (classifyVariant 10 greenVariant).isAvailable = false :=
  no_offer_variant_always_unavailable greenVariant 10 (by decide)

/-- C5 counterexample: an `OutOfStock` offer with quantity 5 and price 50 is
classified `isLowStock = true` while `isAvailable = false`. -/
theorem low_stock_without_availability :
    (classifyVariant 10 grayVariant).isLowStock = true
    ∧ (classifyVariant 10 grayVariant).isAvailable = false := by
  decide

/-- C5 amended: for every decision produced by the engine, `isLowStock` is
true exactly when the resolved quantity is positive and at or below the
threshold — independently of `isAvailable`, so an unavailable variant can be
marked low stock. -/
theorem lowStock_iff_quantity_in_range (ps : Option (List VariantProduct))
    (thr : Int) (k : String) (d : VariantAvailability)
    (h : lookupVariant (createVariantAvailabilityMap ps thr) k = some d) :
    (d.isLowStock = true ↔ 0 < d.quantity ∧ d.quantity ≤ thr) :=
  lookup_build_isLowStock ps thr k d h

/-- Witness for the amended C5 at the "Yellow" unit-test fixture. -/
theorem lowStock_iff_quantity_in_range_witness :
    ((classifyVariant 10 yellowVariant).isLowStock = true ↔
      0 < (classifyVariant 10 yellowVariant).quantity
        ∧ (classifyVariant 10 yellowVariant).quantity ≤ 10) :=
  lowStock_iff_quantity_in_range (some [yellowVariant]) 10 "Yellow"
    (classifyVariant 10 yellowVariant) (by decide)

/-- C6: building the availability map is total by construction (no throw
path) and its key set is exactly the set of variant names present in the
input: the keys are duplicate-free, and a lookup succeeds exactly for the
names of input variants. -/
theorem build_map_complete (ps : Option (List VariantProduct)) (thr : Int) :
    (List.map Prod.fst (createVariantAvailabilityMap ps thr)).Nodup
    ∧ ∀ k : String,
        ((lookupVariant (createVariantAvailabilityMap ps thr) k).isSome = true
          ↔ ∃ v ∈ ps.getD [], v.name = k) := by
  constructor
  · cases ps with
    | none => simp [createVariantAvailabilityMap]
    | some vs => exact nodup_keys_foldl thr vs [] (by simp)
  · intro k
    cases ps with
    | none => simp [createVariantAvailabilityMap, lookupVariant]
    | some vs =>
        have hdef : createVariantAvailabilityMap (some vs) thr
            = List.foldl
              (fun map variant =>
                insertEntry map variant.name (classifyVariant thr variant))
              [] vs := rfl
        rw [hdef, lookup_foldl_isSome thr vs [] k]
        simp [lookupVariant]

/-- C7: the build is deterministic and the diagnostics channel cannot change
the returned map: the map component of the logged build is independent of
whether diagnostics are emitted, and equals the plain build. -/
theorem build_map_deterministic_diagnostics_independent
    (ps : Option (List VariantProduct)) (thr : Int) (d1 d2 : Bool) :
    (createVariantAvailabilityMapLogged ps thr d1).1
        = (createVariantAvailabilityMapLogged ps thr d2).1
    ∧ (createVariantAvailabilityMapLogged ps thr d1).1
        = createVariantAvailabilityMap ps thr := by
  cases ps <;> exact ⟨rfl, rfl⟩

/-- C8 counterexample: a negative low-stock threshold is not rejected — the
build accepts `-5` and classification proceeds, producing an ordinary map
entry for "Red". -/
theorem negative_threshold_not_rejected :
    createVariantAvailabilityMap (some [redVariant]) (-5)
      = [("Red",
          { isAvailable := true, isPreOrder := false, isBackOrder := false
            isLowStock := false, quantity := 100
            availability := "https://schema.org/InStock", lowPrice := 50 })] := by
  decide

/-- C8 amended: no configuration validation exists; a negative threshold is
accepted and flows into classification, where it makes `isLowStock` false in
every produced decision. -/
theorem negative_threshold_reaches_classification
    (ps : Option (List VariantProduct)) (thr : Int) (hthr : thr < 0)
    (k : String) (d : VariantAvailability)
    (h : lookupVariant (createVariantAvailabilityMap ps thr) k = some d) :
    d.isLowStock = false := by
  cases hd : d.isLowStock with
  | false => rfl
  | true =>
      rcases (lookup_build_isLowStock ps thr k d h).1 hd with ⟨h1, h2⟩
      omega

/-- Witness for the amended C8 at threshold `-5` on the "Red" fixture. -/
theorem negative_threshold_reaches_classification_witness :
    (classifyVariant (-5) redVariant).isLowStock = false :=
  negative_threshold_reaches_classification (some [redVariant]) (-5)
    (by decide) "Red" (classifyVariant (-5) redVariant) (by decide)

/-- C9 counterexample: an offer with `quantity` absent and
`inventoryLevel.value` present and equal to 0 resolves to quantity 0 even
though `inventoryLevel.value` is not absent. -/
theorem zero_inventory_value_resolves_to_zero :
    canonicalOffer silverVariant = some silverOffer
    ∧ silverOffer.quantity = none
    ∧ silverOffer.inventoryLevel = some { value := 0 }
    ∧ resolvedQuantity silverVariant = 0 := by
  decide

/-- C9 amended: when the canonical offer has no `quantity` field, the
recorded quantity equals `inventoryLevel.value` when that is present, and 0
when it is absent. -/
theorem resolvedQuantity_fallback (v : VariantProduct) (o : Offer) (thr : Int)
    (h1 : canonicalOffer v = some o) (h2 : o.quantity = none) :
    (classifyVariant thr v).quantity
      = (Option.map InventoryLevel.value o.inventoryLevel).getD 0 := by
  rw [classifyVariant_quantity]
  simp [resolvedQuantity, h1, h2]

/-- Witness for the amended C9 at the Champagne fixture
(`inventoryLevel.value = 150`). -/
theorem resolvedQuantity_fallback_witness :
    (classifyVariant 10 champagneVariant).quantity
        = (Option.map InventoryLevel.value champagneOffer.inventoryLevel).getD 0
    ∧ (classifyVariant 10 champagneVariant).quantity = 150 :=
  ⟨resolvedQuantity_fallback champagneVariant champagneOffer 10 (by decide)
      (by decide),
    by decide⟩

/-- C10: an option value with no entry in the availability map is never
disabled — `isVariantDisabled` returns `false`, with no configuration
parameter involved. -/
theorem missing_entry_not_disabled (optionValue : String)
    (m : AvailabilityMap) (h : lookupVariant m optionValue = none) :
    isVariantDisabled optionValue m = false := by
  unfold isVariantDisabled
  rw [h]

/-- Witness for C10: the key "Unknown" is absent from the map built over the
"Red" fixture and is left enabled. -/
theorem missing_entry_not_disabled_witness :
    isVariantDisabled "Unknown"
      (createVariantAvailabilityMap (some [redVariant]) 10) = false :=
  missing_entry_not_disabled "Unknown"
    (createVariantAvailabilityMap (some [redVariant]) 10) (by decide)
